import Mathlib

/-!
Shallow embedding of the Bleemeo agent connector
(`src/bleemeo_agent/bleemeo.py`, class `BleemeoConnector`).

Python dicts are modelled as association lists with dict semantics
(`lookupD` finds the first binding, `setD` replaces the first binding or
appends, `eraseD` removes a key), Python `None` as `Option.none`, queues
as lists read at the head and pushed at the tail.  Network calls are
abstracted by oracle functions supplied as parameters; the response
observed for a given request is the oracle's value at that request.
-/

section DictHelpers

variable {K V : Type} [DecidableEq K]

/-- First-binding lookup in an association list (Python `dict.get`). -/
def lookupD : List (K × V) → K → Option V
  | [], _ => none
  | (k, v) :: t, k' => if k = k' then some v else lookupD t k'

/-- Dict assignment: replace the binding when present, append otherwise. -/
def setD : List (K × V) → K → V → List (K × V)
  | [], k, v => [(k, v)]
  | (k₀, v₀) :: t, k, v =>
    if k₀ = k then (k, v) :: t else (k₀, v₀) :: setD t k v

/-- Dict deletion (Python `del d[k]`). -/
def eraseD (l : List (K × V)) (k : K) : List (K × V) :=
  l.filter (fun p => !decide (p.1 = k))

end DictHelpers

/-! ## Data model -/

/-- A metric point as produced by collectors and passed to `emit_metric`
(a Python dict; only the fields the connector reads are modelled, plus
`value` for the payload and `uuid` which `_loop` fills in on the copy it
publishes). -/
structure Metric where
  measurement : String
  service : Option String := none
  item : Option String := none
  status : Option String := none
  status_of : Option String := none
  instance_ : Option String := none
  container : Option String := none
  value : Int := 0
  uuid : Option String := none
deriving DecidableEq, Repr

/-- The identity key `(metric['measurement'], metric.get('service'),
metric.get('item'))` used for `metrics_uuid` and `metrics_info`. -/
abbrev MetricKey := String × Option String × Option String

def metricKey (m : Metric) : MetricKey :=
  (m.measurement, m.service, m.item)

/-- `self.metrics_uuid`: identity cache for metrics.  A key bound to
`none` is unresolved (Python `None`); bound to `some u` it is resolved
with remote identifier `u`; an absent key is treated by `_loop` as
deleted (`.get(key, 'deleted')`). -/
abbrev MetricsUuid := List (MetricKey × Option String)

/-- `self.metrics_info` values: the dependency metadata recorded by
`emit_metric` (bleemeo.py 1004-1012). -/
structure MetricInfoV where
  status_of : Option String := none
  instance_ : Option String := none
  container : Option String := none
deriving DecidableEq, Repr

abbrev MetricsInfo := List (MetricKey × MetricInfoV)

/-- A threshold record as stored under `state['thresholds']`
(bleemeo.py 597-602, 862-867). -/
structure ThresholdV where
  low_warning : Option Int := none
  low_critical : Option Int := none
  high_warning : Option Int := none
  high_critical : Option Int := none
deriving DecidableEq, Repr

abbrev Thresholds := List ((String × Option String) × ThresholdV)

/-! ## Outbound drain loop (`BleemeoConnector._loop`, bleemeo.py 375-424) -/

/-- Result of one `_loop` pass: the remaining metric queue and the batch
of points handed to `publish`. -/
structure DrainResult where
  queue : List Metric
  batch : List Metric
deriving DecidableEq, Repr

/-- One `_loop` pass (bleemeo.py 383-418), with explicit fuel standing
for the iteration count of the `while True` (running out of fuel returns
the state reached so far).  Reading an empty queue models the
`queue.Empty` timeout.  `repush` is `repush_metric`; the source compares
it to the current metric with Python `is`, modelled here by structural
equality (the two coincide when the queued points are pairwise
distinct). -/
def drainLoop (muuid : MetricsUuid) :
    Nat → List Metric → Option Metric → List Metric → DrainResult
  | 0, q, _, batch => ⟨q, batch⟩
  | _ + 1, [], _, batch => ⟨[], batch⟩
  | fuel + 1, metric :: rest, repush, batch =>
    match lookupD muuid (metricKey metric) with
    | none =>
      -- `metrics_uuid.get(key, 'deleted') == 'deleted'`: drop the point
      drainLoop muuid fuel rest repush batch
    | some none =>
      -- UUID not available: re-queue, break if the first re-pushed
      -- metric has cycled back, else remember it and continue
      let q' := rest ++ [metric]
      if repush = some metric then ⟨q', batch⟩
      else drainLoop muuid fuel q' (some (repush.getD metric)) batch
    | some (some u) =>
      let batch' := batch ++ [{ metric with uuid := some u }]
      if batch'.length > 1000 then ⟨rest, batch'⟩
      else drainLoop muuid fuel rest repush batch'

/-- A full `_loop` pass as entered from the top: empty batch, no
re-pushed metric yet.  The batch of the result is what gets serialized
and published on the `data` topic when non-empty (bleemeo.py 420-424). -/
def drainLoopRun (muuid : MetricsUuid) (fuel : Nat) (q : List Metric) :
    DrainResult :=
  drainLoop muuid fuel q none []

/-! ## MQTT publication (`publish`, `on_connect`, `run`) -/

/-- bleemeo.py 38. -/
def MQTT_QUEUE_MAX_SIZE : Nat := 2000

/-- `BleemeoConnector.publish` (bleemeo.py 438-446) acting on the
in-flight counter `self._mqtt_queue_size`: returns whether the message
was handed to the MQTT client and the new counter value. -/
def publish (mqtt_queue_size : Nat) (force : Bool) : Bool × Nat :=
  if mqtt_queue_size > MQTT_QUEUE_MAX_SIZE ∧ force = false then
    (false, mqtt_queue_size)
  else
    (true, mqtt_queue_size + 1)

/-- The connect announcement: `on_connect` (bleemeo.py 150-153) calls
`self.publish(...)` without the `force` argument, so the default
`force=False` applies. -/
def connectAnnounce (mqtt_queue_size : Nat) : Bool × Nat :=
  publish mqtt_queue_size false

/-- The disconnect announcement: `run` (bleemeo.py 236-241) calls
`self.publish(..., force=True)`. -/
def disconnectAnnounce (mqtt_queue_size : Nat) : Bool × Nat :=
  publish mqtt_queue_size true

/-! ## Metric emission (`sent_metric`, `emit_metric`, bleemeo.py 974-1015) -/

/-- `BleemeoConnector.sent_metric` (bleemeo.py 974-990).
`alerting_mode` is `self.core.alerting_mode` and `alerting_metric` the
whitelist `self.core.config.get('metric.alerting_metric')`. -/
def sentMetric (alerting_mode : Bool) (alerting_metric : List String)
    (metric_name : String) (metric_has_status : Bool) : Bool :=
  if !alerting_mode then true
  else if metric_has_status then true
  else if metric_name ∈ alerting_metric then true
  else false

/-- The connector state read and written by `emit_metric`; the alerting
configuration is carried along because `sent_metric` reads it. -/
structure EmitState where
  metric_queue : List Metric
  metrics_uuid : MetricsUuid
  metrics_info : MetricsInfo
  alerting_mode : Bool
  alerting_metric : List String
deriving DecidableEq, Repr

/-- `BleemeoConnector.emit_metric` (bleemeo.py 992-1015): filter through
`sent_metric`, enqueue the point when the queue holds fewer than 100000
points, then record first-write-wins info and a `None` uuid entry. -/
def emitMetric (s : EmitState) (m : Metric) : EmitState :=
  let metric_name := m.measurement
  let metric_has_status := m.status.isSome
  if !(sentMetric s.alerting_mode s.alerting_metric
        metric_name metric_has_status) then s
  else
    let s1 := if s.metric_queue.length < 100000 then
        { s with metric_queue := s.metric_queue ++ [m] }
      else s
    let key : MetricKey := (metric_name, m.service, m.item)
    let s2 := if lookupD s1.metrics_info key = none then
        { s1 with metrics_info := (setD s1.metrics_info key
            (MetricInfoV.mk m.status_of m.instance_ m.container)) }
      else s1
    if lookupD s2.metrics_uuid key = none then
      { s2 with metrics_uuid := setD s2.metrics_uuid key none }
    else s2

/-! ## Metric registration (`BleemeoConnector._register_metric`,
bleemeo.py 749-879) -/

/-- Response of a `POST /v1/metric/` as read by `_register_metric`. -/
structure RegResponse where
  status : Nat
  id : String := ""
  threshold_low_warning : Option Int := none
  threshold_low_critical : Option Int := none
  threshold_high_warning : Option Int := none
  threshold_high_critical : Option Int := none

/-- Read-only context of one `_register_metric` pass: the local docker
containers (`self.core.docker_containers`, by name), the container
identity cache (`state['docker_container_uuid']`: name to
(inspect hash, uuid)), the service identity cache (uuid per
(name, instance)), and the registry oracle giving the response to the
registration POST of each metric identity. -/
structure RegEnv where
  docker_containers : List String
  container_uuid : List (String × (String × Option String))
  services_uuid : List ((String × Option String) × String)
  oracle : MetricKey → RegResponse

/-- Mutable state of one `_register_metric` pass.  `calls` records the
identities for which a registration POST was issued; `aborted` models
the early `return` on a non-201 response (bleemeo.py 850-855); `crashed`
models the uncaught `KeyError` of `services_uuid[(service, instance)]`
(bleemeo.py 836). -/
structure RegState where
  metrics_uuid : MetricsUuid
  metrics_info : MetricsInfo
  thresholds : Thresholds
  calls : List MetricKey := []
  aborted : Bool := false
  crashed : Bool := false

/-- The registration POST and its aftermath (bleemeo.py 841-879): on a
non-201 response the whole pass returns; on success the uuid and the
returned thresholds are stored. -/
def registerMetricPost (env : RegEnv) (st : RegState)
    (metric_key : MetricKey) (metric_name : String) (item : Option String) :
    RegState :=
  let resp := env.oracle metric_key
  let st := { st with calls := st.calls ++ [metric_key] }
  if resp.status ≠ 201 then
    { st with aborted := true }
  else
    { st with
      metrics_uuid := setD st.metrics_uuid metric_key (some resp.id),
      thresholds := setD st.thresholds (metric_name, item)
        ⟨resp.threshold_low_warning, resp.threshold_low_critical,
         resp.threshold_high_warning, resp.threshold_high_critical⟩ }

/-- The service part of the payload (bleemeo.py 833-837):
`services_uuid[(service, instance)]` raises `KeyError` when absent. -/
def registerMetricService (env : RegEnv) (st : RegState)
    (metric_key : MetricKey) (metric_name : String)
    (service item : Option String) (info : MetricInfoV) : RegState :=
  match service with
  | some sname =>
    match lookupD env.services_uuid (sname, info.instance_) with
    | none => { st with crashed := true }
    | some _ => registerMetricPost env st metric_key metric_name item
  | none => registerMetricPost env st metric_key metric_name item

/-- The container gate (bleemeo.py 812-829): a metric of a container
that disappeared locally is dropped from both caches; a metric of a
container not yet registered is skipped this cycle. -/
def registerMetricContainer (env : RegEnv) (st : RegState)
    (metric_key : MetricKey) (metric_name : String)
    (service item : Option String) (info : MetricInfoV) : RegState :=
  match info.container with
  | some cname =>
    if cname ∈ env.docker_containers then
      match lookupD env.container_uuid cname with
      | none => st
      | some (_, none) => st
      | some (_, some _) =>
        registerMetricService env st metric_key metric_name service item info
    else
      { st with metrics_uuid := eraseD st.metrics_uuid metric_key,
                metrics_info := eraseD st.metrics_info metric_key }
  | none => registerMetricService env st metric_key metric_name service item info

/-- One iteration of the `for metric_key, metric_uuid in list_metrics`
loop of `_register_metric` (bleemeo.py 762-879).  Once `aborted` or
`crashed` is set the remaining iterations never run (Python `return` /
uncaught exception). -/
def registerMetricStep (env : RegEnv) (st : RegState)
    (pair : MetricKey × Option String) : RegState :=
  if st.aborted || st.crashed then st
  else match pair with
  | (_, some _) => st
  | (metric_key, none) =>
    match lookupD st.metrics_info metric_key with
    | none =>
      -- metric seen on a previous run only: purge the stale uuid entry
      { st with metrics_uuid := eraseD st.metrics_uuid metric_key }
    | some info =>
      let (metric_name, service, item) := metric_key
      match info.status_of with
      | some so =>
        match lookupD st.metrics_uuid (so, service, item) with
        | none =>
          -- the status_of metric is deleted, also delete self
          { st with metrics_uuid := eraseD st.metrics_uuid metric_key,
                    metrics_info := eraseD st.metrics_info metric_key }
        | some none => st  -- parent not yet registered: skip this cycle
        | some (some _) =>
          registerMetricContainer env st metric_key metric_name service item info
      | none =>
        registerMetricContainer env st metric_key metric_name service item info

/-- `BleemeoConnector._register_metric`: fold the per-metric step over
the snapshot `list_metrics = list(self.metrics_uuid.items())`
(bleemeo.py 759-762). -/
def registerMetric (env : RegEnv) (st : RegState) : RegState :=
  st.metrics_uuid.foldl (registerMetricStep env) st

/-! ## Threshold retrieval and remote-deletion purge
(`BleemeoConnector._retrive_threshold`, bleemeo.py 558-624) -/

/-- One metric object returned by `GET /v1/metric/?agent=...`; the API
uses the empty string for "no item". -/
structure RemoteMetric where
  label : String
  item : String := ""
  last_status : Option String := none
  id : String
  threshold_low_warning : Option Int := none
  threshold_low_critical : Option Int := none
  threshold_high_warning : Option Int := none
  threshold_high_critical : Option Int := none
deriving DecidableEq, Repr

/-- The predicate under which `_retrive_threshold` keeps a local
`metrics_uuid` entry (bleemeo.py 609-616): unresolved entries and
entries whose uuid is in the fetched remote set survive; any other
resolved entry is deleted outright. -/
def rtKeep (registered : List String) (p : MetricKey × Option String) : Bool :=
  match p.2 with
  | none => true
  | some u => decide (u ∈ registered)

/-- The fetch loop of `_retrive_threshold` (bleemeo.py 576-602): build
the set of still-registered remote uuids and the threshold table,
deleting remote metrics that should no longer be sent; a failed deletion
makes the whole method return early (`none`). -/
def rtFetchLoop (alerting_mode : Bool) (alerting_metric : List String)
    (deleteOracle : String → Nat) :
    List RemoteMetric → List String → Thresholds →
    Option (List String × Thresholds)
  | [], registered, th => some (registered, th)
  | d :: rest, registered, th =>
    if !(sentMetric alerting_mode alerting_metric d.label
          d.last_status.isSome) then
      if deleteOracle d.id ≠ 204 then none
      else rtFetchLoop alerting_mode alerting_metric deleteOracle rest
        registered th
    else
      rtFetchLoop alerting_mode alerting_metric deleteOracle rest
        (registered ++ [d.id])
        (setD th (d.label, if d.item = "" then none else some d.item)
          ⟨d.threshold_low_warning, d.threshold_low_critical,
           d.threshold_high_warning, d.threshold_high_critical⟩)

/-- Outcome of `_retrive_threshold`: the purged `metrics_uuid`, the new
threshold table, and the `(metric_name, item)` pairs passed to
`core.purge_metrics`. -/
structure RTResult where
  metrics_uuid : MetricsUuid
  thresholds : Thresholds
  deleted_metrics : List (String × Option String)
deriving DecidableEq, Repr

/-- `BleemeoConnector._retrive_threshold` (bleemeo.py 558-624): `none`
models the early `return` after a failed remote deletion, leaving all
local state untouched. -/
def retriveThreshold (alerting_mode : Bool) (alerting_metric : List String)
    (deleteOracle : String → Nat) (remote : List RemoteMetric)
    (muuid : MetricsUuid) : Option RTResult :=
  match rtFetchLoop alerting_mode alerting_metric deleteOracle remote [] [] with
  | none => none
  | some (registered, th) =>
    some ⟨muuid.filter (rtKeep registered), th,
      (muuid.filter (fun p => !(rtKeep registered p))).map
        (fun p => (p.1.1, p.1.2.2))⟩

/-! ## Container registration
(`BleemeoConnector._register_containers`, bleemeo.py 881-972) -/

/-- `state['docker_container_uuid']`: container name to
(inspect-content hash, remote uuid).  The uuid component is `Option`
because `.get(name, (None, None))` can produce `None` (bleemeo.py 891),
though entries written by the code always carry a uuid. -/
abbrev ContainerUuid := List (String × (String × Option String))

/-- Context of one `_register_containers` pass: the hash of the inspect
payload (`hashlib.sha1(json.dumps(...))`, abstracted), the registry
oracle for POST/PUT by container name, the oracle for DELETE by
container uuid, and the current clock. -/
structure ContEnv where
  hashFn : String → String
  regOracle : String → Nat × String
  deleteOracle : String → Nat
  clock : Nat

/-- State touched by `_register_containers`. -/
structure ContState where
  container_uuid : ContainerUuid
  last_containers_removed : Nat
deriving Repr

/-- The create/update loop of `_register_containers` (bleemeo.py
887-949): skip containers whose inspect hash is unchanged, otherwise
POST (no uuid yet) or PUT and store `(new_hash, uuid)` on a 200/201
response.  `docker` is `self.core.docker_containers` as a list of
(name, inspect payload). -/
def registerContainersCreate (env : ContEnv)
    (docker : List (String × String)) (cu : ContainerUuid) : ContainerUuid :=
  docker.foldl (fun (cu : ContainerUuid) (nb : String × String) =>
    let new_hash := env.hashFn nb.2
    let keep : Bool :=
      match lookupD cu nb.1 with
      | some (old_hash, _) => decide (old_hash = new_hash)
      | none => false
    if keep then cu
    else
      let resp := env.regOracle nb.1
      if resp.1 = 200 ∨ resp.1 = 201 then
        setD cu nb.1 (new_hash, some resp.2)
      else cu) cu

/-- One deletion from the `deleted_containers` loop (bleemeo.py
951-972): DELETE the remote container; on 204/404 remove the cache
entry and stamp `last_containers_removed` with the clock. -/
def containerDeleteStep (env : ContEnv) (st : ContState) (name : String) :
    ContState :=
  match lookupD st.container_uuid name with
  | some (_, some obj_uuid) =>
    if env.deleteOracle obj_uuid = 204 ∨ env.deleteOracle obj_uuid = 404 then
      { container_uuid := eraseD st.container_uuid name,
        last_containers_removed := env.clock }
    else st
  | _ => st

/-- `BleemeoConnector._register_containers` (bleemeo.py 881-972):
create/update every locally-present container, then delete every cached
container name no longer present in local discovery — in the same
pass. -/
def registerContainers (env : ContEnv) (docker : List (String × String))
    (st : ContState) : ContState :=
  let cu := registerContainersCreate env docker st.container_uuid
  let deleted := (cu.map Prod.fst).filter
    (fun n => !decide (n ∈ docker.map Prod.fst))
  deleted.foldl (containerDeleteStep env) { st with container_uuid := cu }

/-! ## Concrete sample values used by witnesses and counterexamples -/

def mCpu : Metric := { measurement := "cpu_used" }

def emitFullQueue : EmitState :=
  { metric_queue := List.replicate 100000 mCpu, metrics_uuid := [],
    metrics_info := [], alerting_mode := false, alerting_metric := [] }

def mAgent : Metric := { measurement := "agent_status", status_of := some "other" }

def emitS0 : EmitState :=
  { metric_queue := [], metrics_uuid := [],
    metrics_info := [(("agent_status", none, none), MetricInfoV.mk none none none)],
    alerting_mode := false, alerting_metric := [] }

def mNoise : Metric := { measurement := "noise" }

def emitAlerting : EmitState :=
  { metric_queue := [], metrics_uuid := [], metrics_info := [],
    alerting_mode := true, alerting_metric := ["whitelisted"] }

/-- Environment of a registration pass with nothing but the registry
oracle: no containers, no services. -/
def c2Env (o : MetricKey → RegResponse) : RegEnv :=
  { docker_containers := [], container_uuid := [], services_uuid := [],
    oracle := o }

/-- A registration pass over two unresolved metric identities with
recorded info. -/
def c2St (k1 k2 : MetricKey) (i1 i2 : MetricInfoV) : RegState :=
  { metrics_uuid := [(k1, none), (k2, none)],
    metrics_info := [(k1, i1), (k2, i2)], thresholds := [] }

/-- Registry oracle that rejects the registration of "m1" with a 400
and accepts anything else. -/
def c2oracle : MetricKey → RegResponse :=
  fun k => if k.1 = "m1" then { status := 400 }
    else { status := 201, id := "id2" }

/-- A registration pass over a single unresolved metric identity with
recorded info. -/
def c8St (k : MetricKey) (iA : MetricInfoV) : RegState :=
  { metrics_uuid := [(k, none)], metrics_info := [(k, iA)],
    thresholds := [] }

/-- A container environment whose registry accepts registrations and
deletions unconditionally. -/
def c5env : ContEnv :=
  { hashFn := id, regOracle := fun _ => (201, "cid"),
    deleteOracle := fun _ => 204, clock := 42 }

/-! # Theorems -/

section DictLemmas

variable {K V : Type} [DecidableEq K]

theorem lookupD_setD_self (l : List (K × V)) (k : K) (v : V) :
    lookupD (setD l k v) k = some v := by
  induction l with
  | nil => simp [setD, lookupD]
  | cons p t ih =>
    obtain ⟨k₀, v₀⟩ := p
    by_cases hk : k₀ = k
    · simp [setD, hk, lookupD]
    · simp [setD, hk, lookupD, ih]

theorem lookupD_setD_ne (l : List (K × V)) (k k' : K) (v : V) (h : k' ≠ k) :
    lookupD (setD l k v) k' = lookupD l k' := by
  have hkk : ¬ (k = k') := fun hh => h hh.symm
  induction l with
  | nil => simp [setD, lookupD, hkk]
  | cons p t ih =>
    obtain ⟨k₀, v₀⟩ := p
    by_cases hk : k₀ = k
    · subst hk
      simp [setD, lookupD, hkk]
    · by_cases hk' : k₀ = k'
      · simp [setD, hk, lookupD, hk', h]
      · simp [setD, hk, lookupD, hk', ih]

theorem lookupD_eraseD_self (l : List (K × V)) (k : K) :
    lookupD (eraseD l k) k = none := by
  induction l with
  | nil => rfl
  | cons p t ih =>
    obtain ⟨k₀, v⟩ := p
    by_cases hk : k₀ = k
    · have hb : (!decide ((k₀, v).1 = k)) = false := by simp [hk]
      simp only [eraseD, List.filter_cons, hb, Bool.false_eq_true, if_false]
      exact ih
    · have hb : (!decide ((k₀, v).1 = k)) = true := by simp [hk]
      simp only [eraseD, List.filter_cons, hb, if_true]
      simp only [eraseD] at ih
      simp [lookupD, hk, ih]

theorem lookupD_eraseD_ne (l : List (K × V)) (k k' : K) (h : k' ≠ k) :
    lookupD (eraseD l k) k' = lookupD l k' := by
  induction l with
  | nil => rfl
  | cons p t ih =>
    obtain ⟨k₀, v⟩ := p
    by_cases hk : k₀ = k
    · subst hk
      have hne : ¬ (k₀ = k') := fun hh => h hh.symm
      have hb : (!decide ((k₀, v).1 = k₀)) = false := by simp
      simp only [eraseD, List.filter_cons, hb, Bool.false_eq_true, if_false]
      simp only [eraseD] at ih
      simp [lookupD, hne, ih]
    · have hb : (!decide ((k₀, v).1 = k)) = true := by simp [hk]
      simp only [eraseD, List.filter_cons, hb, if_true]
      simp only [eraseD] at ih
      by_cases hk' : k₀ = k' <;> simp [lookupD, hk', ih]

theorem mem_keys_of_lookupD {l : List (K × V)} {k : K} {v : V}
    (h : lookupD l k = some v) : k ∈ l.map Prod.fst := by
  induction l with
  | nil => simp [lookupD] at h
  | cons p t ih =>
    obtain ⟨k₀, v₀⟩ := p
    by_cases hk : k₀ = k
    · subst hk; simp
    · simp only [lookupD, hk, if_false] at h
      simp [ih h]

end DictLemmas

/-! ## Drain-loop lemmas -/

theorem drainLoop_count_unresolved (muuid : MetricsUuid) (m : Metric)
    (h : lookupD muuid (metricKey m) = some none) :
    ∀ fuel q repush batch,
      (drainLoop muuid fuel q repush batch).queue.count m = q.count m := by
  intro fuel
  induction fuel with
  | zero => intro q repush batch; rfl
  | succ fuel ih =>
    intro q repush batch
    match q with
    | [] => rfl
    | metric :: rest =>
      by_cases hm : metric = m
      · subst hm
        simp only [drainLoop, h]
        split
        · simp [List.count_append, List.count_cons]
        · rw [ih]
          simp [List.count_append, List.count_cons]
      · have hc : (metric :: rest).count m = rest.count m := by
          simp [List.count_cons, hm]
        cases hl : lookupD muuid (metricKey metric) with
        | none => simp only [drainLoop, hl]; rw [ih, hc]
        | some o =>
          cases o with
          | none =>
            simp only [drainLoop, hl]
            split
            · simp [List.count_append, List.count_cons, hm, hc]
            · rw [ih]
              simp [List.count_append, List.count_cons, hm, hc]
          | some u =>
            simp only [drainLoop, hl]
            split
            · simpa using hc.symm
            · rw [ih, hc]

theorem drainLoop_batch_sound (muuid : MetricsUuid) :
    ∀ fuel q repush batch,
      (∀ b ∈ batch, ∃ u, b.uuid = some u ∧
          lookupD muuid (metricKey b) = some (some u)) →
      ∀ b ∈ (drainLoop muuid fuel q repush batch).batch,
        ∃ u, b.uuid = some u ∧
          lookupD muuid (metricKey b) = some (some u) := by
  intro fuel
  induction fuel with
  | zero => intro q repush batch hinv; exact hinv
  | succ fuel ih =>
    intro q repush batch hinv
    match q with
    | [] => exact hinv
    | metric :: rest =>
      cases hl : lookupD muuid (metricKey metric) with
      | none => simp only [drainLoop, hl]; exact ih rest repush batch hinv
      | some o =>
        cases o with
        | none =>
          simp only [drainLoop, hl]
          split
          · exact hinv
          · exact ih _ _ _ hinv
        | some u =>
          have hinv' : ∀ b ∈ batch ++ [{ metric with uuid := some u }],
              ∃ w, b.uuid = some w ∧
                lookupD muuid (metricKey b) = some (some w) := by
            intro b hb
            rcases List.mem_append.mp hb with hb | hb
            · exact hinv b hb
            · simp only [List.mem_singleton] at hb
              subst hb
              exact ⟨u, rfl, by simpa [metricKey] using hl⟩
          simp only [drainLoop, hl]
          split
          · exact hinv'
          · exact ih _ _ _ hinv'

theorem drainLoop_batch_le (muuid : MetricsUuid) :
    ∀ fuel q repush batch, batch.length ≤ 1000 →
      (drainLoop muuid fuel q repush batch).batch.length ≤ 1001 := by
  intro fuel
  induction fuel with
  | zero => intro q repush batch hb; exact hb.trans (by omega)
  | succ fuel ih =>
    intro q repush batch hb
    match q with
    | [] => exact hb.trans (by omega)
    | metric :: rest =>
      cases hl : lookupD muuid (metricKey metric) with
      | none => simp only [drainLoop, hl]; exact ih _ _ _ hb
      | some o =>
        cases o with
        | none =>
          simp only [drainLoop, hl]
          split
          · exact hb.trans (by omega)
          · exact ih _ _ _ hb
        | some u =>
          simp only [drainLoop, hl]
          split
          · simp only [List.length_append, List.length_singleton]
            omega
          · rename_i hgt
            refine ih _ _ _ ?_
            simp only [List.length_append, List.length_singleton] at hgt ⊢
            omega

theorem drainLoop_batch_full (muuid : MetricsUuid) (u0 : String) :
    ∀ fuel q repush batch,
      (∀ m ∈ q, lookupD muuid (metricKey m) = some (some u0)) →
      batch.length ≤ 1000 → 1000 < q.length + batch.length →
      q.length ≤ fuel →
      (drainLoop muuid fuel q repush batch).batch.length = 1001 := by
  intro fuel
  induction fuel with
  | zero =>
    intro q repush batch hq hb hsum hlen
    have : q = [] := List.eq_nil_of_length_eq_zero (by omega)
    subst this
    simp at hsum
    omega
  | succ fuel ih =>
    intro q repush batch hq hb hsum hlen
    match q with
    | [] => simp at hsum; omega
    | metric :: rest =>
      have hm := hq metric (by simp)
      simp only [drainLoop, hm]
      split
      · rename_i hgt
        simp only [List.length_append, List.length_singleton] at hgt ⊢
        omega
      · rename_i hgt
        refine ih rest repush _ (fun m hm' => hq m (by simp [hm'])) ?_ ?_ ?_
        · simp only [List.length_append, List.length_singleton] at hgt ⊢
          omega
        · simp only [List.length_append, List.length_singleton]
          simp only [List.length_cons] at hsum
          omega
        · simp only [List.length_cons] at hlen
          omega

/-! ## Claim C1 -/

/-- C1: a metric point whose identity is mapped to the unresolved marker
(`None`) in `metrics_uuid` when the drain loop reads it is never part of
the published batch; it is re-queued (its multiplicity in the metric
queue is unchanged by the pass), and every point that does reach a
published batch carries a concrete uuid that the identity cache maps its
identity to — so delivery can only happen once the identity is
resolved. -/
theorem c1_unresolved_points_not_published (muuid : MetricsUuid)
    (fuel : Nat) (q : List Metric) (m : Metric)
    (h : lookupD muuid (metricKey m) = some none) :
    m ∉ (drainLoopRun muuid fuel q).batch ∧
    (drainLoopRun muuid fuel q).queue.count m = q.count m ∧
    ∀ b ∈ (drainLoopRun muuid fuel q).batch,
      ∃ u, b.uuid = some u ∧
        lookupD muuid (metricKey b) = some (some u) := by
  simp only [drainLoopRun]
  have hsound := drainLoop_batch_sound muuid fuel q none [] (by simp)
  refine ⟨?_, drainLoop_count_unresolved muuid m h fuel q none [], hsound⟩
  intro hmem
  obtain ⟨u, _, hlook⟩ := hsound m hmem
  rw [h] at hlook
  simp at hlook

/-- Witness for C1 at a concrete input: one unresolved point stays in
the queue and nothing is published. -/
theorem c1_unresolved_points_not_published_witness :
    ({ measurement := "cpu_used" } : Metric) ∉
      (drainLoopRun [(("cpu_used", none, none), none)] 5
        [{ measurement := "cpu_used" }]).batch ∧
    (drainLoopRun [(("cpu_used", none, none), none)] 5
        [{ measurement := "cpu_used" }]).queue.count
        ({ measurement := "cpu_used" } : Metric) =
      [({ measurement := "cpu_used" } : Metric)].count
        ({ measurement := "cpu_used" } : Metric) ∧
    ∀ b ∈ (drainLoopRun [(("cpu_used", none, none), none)] 5
        [{ measurement := "cpu_used" }]).batch,
      ∃ u, b.uuid = some u ∧
        lookupD [(("cpu_used", none, none), none)] (metricKey b) =
          some (some u) :=
  c1_unresolved_points_not_published _ 5 _ _ (by decide)

/-! ## Claim C4 -/

/-- C4 counterexample: with 1001 resolved points waiting, one `_loop`
pass publishes a single batch of more than 1000 points — the loop only
breaks once `len(metrics) > 1000`, after the 1001st append. -/
theorem c4_counterexample :
    1000 < (drainLoopRun [(("cpu_used", none, none), some "u0")] 1100
      (List.replicate 1001 ({ measurement := "cpu_used" } : Metric))
      ).batch.length := by
  have h := drainLoop_batch_full [(("cpu_used", none, none), some "u0")]
    "u0" 1100
    (List.replicate 1001 ({ measurement := "cpu_used" } : Metric)) none []
    (fun m hm => by
      have := List.eq_of_mem_replicate hm
      subst this
      decide)
    (by simp)
    (by simp only [List.length_replicate, List.length_nil]; omega)
    (by simp only [List.length_replicate]; omega)
  simp only [drainLoopRun]
  omega

/-- C4 (amended): every batch published by one drain-loop pass contains
at most 1001 points (1000 is exceeded by exactly one point in the worst
case, because the break condition is strict). -/
theorem c4_batch_at_most_1001 (muuid : MetricsUuid) (fuel : Nat)
    (q : List Metric) :
    (drainLoopRun muuid fuel q).batch.length ≤ 1001 :=
  drainLoop_batch_le muuid fuel q none [] (by simp)

/-! ## Claim C7 -/

/-- C7 counterexample: with the in-flight counter strictly above
`MQTT_QUEUE_MAX_SIZE`, the connect announcement is dropped — `on_connect`
publishes it without `force`, so it does not bypass the ceiling as the
claim states. -/
theorem c7_counterexample :
    (connectAnnounce 2001).1 = false ∧ 2001 > MQTT_QUEUE_MAX_SIZE := by
  decide

/-- C7 (amended): when the in-flight counter exceeds
`MQTT_QUEUE_MAX_SIZE`, newly published ordinary messages are dropped at
the producer and the connect announcement is dropped with them; only the
disconnect announcement, published with `force=True`, bypasses the
ceiling. -/
theorem c7_force_gate (n : Nat) (h : n > MQTT_QUEUE_MAX_SIZE) :
    (publish n false).1 = false ∧ (connectAnnounce n).1 = false ∧
    (disconnectAnnounce n).1 = true := by
  simp [publish, connectAnnounce, disconnectAnnounce, h]

/-- Witness for the amended C7 at counter value 2001. -/
theorem c7_force_gate_witness :
    (publish 2001 false).1 = false ∧ (connectAnnounce 2001).1 = false ∧
    (disconnectAnnounce 2001).1 = true :=
  c7_force_gate 2001 (by decide)

/-! ## Emit-metric lemmas -/

theorem emitMetric_not_sent (s : EmitState) (m : Metric)
    (h : sentMetric s.alerting_mode s.alerting_metric m.measurement
      m.status.isSome = false) :
    emitMetric s m = s := by
  simp [emitMetric, h]


theorem emitMetric_metrics_info_eq (s : EmitState) (m : Metric) :
    (emitMetric s m).metrics_info =
      if sentMetric s.alerting_mode s.alerting_metric m.measurement
            m.status.isSome = true ∧
          lookupD s.metrics_info (metricKey m) = none then
        setD s.metrics_info (metricKey m)
          (MetricInfoV.mk m.status_of m.instance_ m.container)
      else s.metrics_info := by
  cases h1 : sentMetric s.alerting_mode s.alerting_metric m.measurement
      m.status.isSome with
  | false => simp [emitMetric, h1]
  | true =>
    by_cases h2 : s.metric_queue.length < 100000 <;>
      by_cases h3 : lookupD s.metrics_info (m.measurement, m.service, m.item)
        = none <;>
      simp [emitMetric, metricKey, h1, h2, h3] <;>
      split <;> rfl

theorem emitMetric_metrics_uuid_eq (s : EmitState) (m : Metric) :
    (emitMetric s m).metrics_uuid =
      if sentMetric s.alerting_mode s.alerting_metric m.measurement
            m.status.isSome = true ∧
          lookupD s.metrics_uuid (metricKey m) = none then
        setD s.metrics_uuid (metricKey m) none
      else s.metrics_uuid := by
  cases h1 : sentMetric s.alerting_mode s.alerting_metric m.measurement
      m.status.isSome with
  | false => simp [emitMetric, h1]
  | true =>
    by_cases h2 : s.metric_queue.length < 100000 <;>
      by_cases h4 : lookupD s.metrics_uuid (m.measurement, m.service, m.item)
        = none <;>
      simp [emitMetric, metricKey, h1, h2, h4] <;>
      split <;> rfl

theorem emitMetric_metric_queue_eq (s : EmitState) (m : Metric) :
    (emitMetric s m).metric_queue =
      if sentMetric s.alerting_mode s.alerting_metric m.measurement
            m.status.isSome = true ∧
          s.metric_queue.length < 100000 then
        s.metric_queue ++ [m]
      else s.metric_queue := by
  cases h1 : sentMetric s.alerting_mode s.alerting_metric m.measurement
      m.status.isSome with
  | false => simp [emitMetric, h1]
  | true =>
    by_cases h2 : s.metric_queue.length < 100000 <;>
      simp [emitMetric, metricKey, h1, h2] <;>
      (try split) <;> (try split) <;> rfl

theorem emitMetric_alerting_mode (s : EmitState) (m : Metric) :
    (emitMetric s m).alerting_mode = s.alerting_mode := by
  cases h1 : sentMetric s.alerting_mode s.alerting_metric m.measurement
      m.status.isSome with
  | false => simp [emitMetric, h1]
  | true =>
    by_cases h2 : s.metric_queue.length < 100000 <;>
      simp [emitMetric, metricKey, h1, h2] <;>
      (try split) <;> (try split) <;> rfl

theorem emitMetric_alerting_metric (s : EmitState) (m : Metric) :
    (emitMetric s m).alerting_metric = s.alerting_metric := by
  cases h1 : sentMetric s.alerting_mode s.alerting_metric m.measurement
      m.status.isSome with
  | false => simp [emitMetric, h1]
  | true =>
    by_cases h2 : s.metric_queue.length < 100000 <;>
      simp [emitMetric, metricKey, h1, h2] <;>
      (try split) <;> (try split) <;> rfl

/-! ## Claim C9 -/

/-- C9: when the outbound metric queue already holds at least the
ceiling of 100000 points, `emit_metric` drops the new point — the queue
is unchanged, so it never grows beyond the ceiling.  (`emit_metric`
itself performs no network operation; it is embedded as a pure state
update, like the source, which only touches in-process structures.) -/
theorem c9_emit_queue_bounded (s : EmitState) (m : Metric)
    (h : 100000 ≤ s.metric_queue.length) :
    (emitMetric s m).metric_queue = s.metric_queue := by
  rw [emitMetric_metric_queue_eq]
  have h2 : ¬ (s.metric_queue.length < 100000) := by omega
  simp [h2]

/-- Witness for C9: a queue of exactly 100000 points rejects the next
point. -/
theorem c9_emit_queue_bounded_witness :
    (emitMetric emitFullQueue mCpu).metric_queue =
      emitFullQueue.metric_queue :=
  c9_emit_queue_bounded emitFullQueue mCpu
    (by show 100000 ≤ (List.replicate 100000 mCpu).length
        rw [List.length_replicate])

/-! ## Claim C6 -/

/-- C6: recording metric info is first-write-wins (an already-recorded
info entry for the identity survives a later emission unchanged) and
emitting the same point twice leaves `metrics_info` and `metrics_uuid`
exactly as after emitting it once. -/
theorem c6_record_info_first_write_idempotent (s : EmitState) (m : Metric)
    (i0 : MetricInfoV) :
    (lookupD s.metrics_info (metricKey m) = some i0 →
      lookupD (emitMetric s m).metrics_info (metricKey m) = some i0) ∧
    (emitMetric (emitMetric s m) m).metrics_info =
      (emitMetric s m).metrics_info ∧
    (emitMetric (emitMetric s m) m).metrics_uuid =
      (emitMetric s m).metrics_uuid := by
  refine ⟨?_, ?_, ?_⟩
  · intro hi
    rw [emitMetric_metrics_info_eq]
    simp [hi]
  · rw [emitMetric_metrics_info_eq (emitMetric s m) m,
        emitMetric_alerting_mode, emitMetric_alerting_metric]
    cases h1 : sentMetric s.alerting_mode s.alerting_metric m.measurement
        m.status.isSome with
    | false => simp
    | true =>
      have hne : lookupD (emitMetric s m).metrics_info (metricKey m) ≠ none := by
        rw [emitMetric_metrics_info_eq]
        by_cases h3 : lookupD s.metrics_info (metricKey m) = none
        · simp [h1, h3, lookupD_setD_self]
        · simp [h1, h3]
      simp [hne]
  · rw [emitMetric_metrics_uuid_eq (emitMetric s m) m,
        emitMetric_alerting_mode, emitMetric_alerting_metric]
    cases h1 : sentMetric s.alerting_mode s.alerting_metric m.measurement
        m.status.isSome with
    | false => simp
    | true =>
      have hne : lookupD (emitMetric s m).metrics_uuid (metricKey m) ≠ none := by
        rw [emitMetric_metrics_uuid_eq]
        by_cases h4 : lookupD s.metrics_uuid (metricKey m) = none
        · simp [h1, h4, lookupD_setD_self]
        · simp [h1, h4]
      simp [hne]

/-- Witness for C6: a recorded info entry survives a second emission
with different metadata, and double emission equals single emission on
both maps. -/
theorem c6_record_info_first_write_idempotent_witness :
    lookupD (emitMetric emitS0 mAgent).metrics_info (metricKey mAgent) =
      some (MetricInfoV.mk none none none) ∧
    (emitMetric (emitMetric emitS0 mAgent) mAgent).metrics_info =
      (emitMetric emitS0 mAgent).metrics_info ∧
    (emitMetric (emitMetric emitS0 mAgent) mAgent).metrics_uuid =
      (emitMetric emitS0 mAgent).metrics_uuid :=
  ⟨(c6_record_info_first_write_idempotent emitS0 mAgent
      (MetricInfoV.mk none none none)).1 (by decide),
   (c6_record_info_first_write_idempotent emitS0 mAgent
      (MetricInfoV.mk none none none)).2.1,
   (c6_record_info_first_write_idempotent emitS0 mAgent
      (MetricInfoV.mk none none none)).2.2⟩

/-! ## Claim C10 -/

/-- C10: with alerting mode enabled, a point whose name is not
whitelisted and whose status is absent is silently discarded — the
whole connector state (queue, info, uuid maps) is untouched; with
alerting mode disabled, `sent_metric` accepts every point, so nothing
is filtered on this basis. -/
theorem c10_alerting_filter (s : EmitState) (m : Metric) :
    (s.alerting_mode = true → m.measurement ∉ s.alerting_metric →
      m.status = none → emitMetric s m = s) ∧
    (s.alerting_mode = false →
      sentMetric s.alerting_mode s.alerting_metric m.measurement
        m.status.isSome = true) := by
  constructor
  · intro ha hw hs
    apply emitMetric_not_sent
    simp [sentMetric, ha, hw, hs]
  · intro ha
    simp [sentMetric, ha]

/-- Witness for C10: in alerting mode the unwhitelisted, status-less
point "noise" leaves the state untouched; with alerting disabled the
same point passes the filter. -/
theorem c10_alerting_filter_witness :
    emitMetric emitAlerting mNoise = emitAlerting ∧
    sentMetric false ["whitelisted"] "noise" false = true :=
  ⟨(c10_alerting_filter emitAlerting mNoise).1 rfl (by decide) rfl,
   (c10_alerting_filter
      { emitAlerting with alerting_mode := false } mNoise).2 rfl⟩

/-! ## Claim C2 -/

/-- C2 counterexample: two unresolved metrics, the registration of the
first fails with a 400; the second — although unresolved with recorded
info — is never attempted, because `_register_metric` returns on the
first non-201 response.  The pass issues exactly one registration
call. -/
theorem c2_counterexample :
    lookupD (c2St ("m1", none, none) ("m2", none, none)
        ⟨none, none, none⟩ ⟨none, none, none⟩).metrics_uuid
      ("m2", none, none) = some none ∧
    (c2oracle ("m1", none, none)).status ≠ 201 ∧
    (registerMetric (c2Env c2oracle)
      (c2St ("m1", none, none) ("m2", none, none)
        ⟨none, none, none⟩ ⟨none, none, none⟩)).calls =
      [("m1", none, none)] ∧
    lookupD (registerMetric (c2Env c2oracle)
      (c2St ("m1", none, none) ("m2", none, none)
        ⟨none, none, none⟩ ⟨none, none, none⟩)).metrics_uuid
      ("m2", none, none) = some none := by
  decide

/-- C2 (amended): a non-201 registration response aborts the remainder
of the registration pass (the failed identity is the last one
attempted); the failed identity remains unresolved in the cache, and
the failure is only logged — the pass ends normally, without an
exception.  Metrics later in the pass are simply not attempted until
the next cycle. -/
theorem c2_failure_aborts_pass (o : MetricKey → RegResponse)
    (k1 k2 : MetricKey) (i1 i2 : MetricInfoV)
    (hne : k1 ≠ k2) (hsvc1 : k1.2.1 = none)
    (hso1 : i1.status_of = none) (hc1 : i1.container = none)
    (hfail : (o k1).status ≠ 201) :
    (registerMetric (c2Env o) (c2St k1 k2 i1 i2)).calls = [k1] ∧
    (registerMetric (c2Env o) (c2St k1 k2 i1 i2)).aborted = true ∧
    (registerMetric (c2Env o) (c2St k1 k2 i1 i2)).crashed = false ∧
    lookupD (registerMetric (c2Env o) (c2St k1 k2 i1 i2)).metrics_uuid k1 =
      some none ∧
    lookupD (registerMetric (c2Env o) (c2St k1 k2 i1 i2)).metrics_uuid k2 =
      some none := by
  obtain ⟨n1, s1, it1⟩ := k1
  dsimp only at hsvc1
  subst hsvc1
  simp [registerMetric, c2St, c2Env, registerMetricStep,
    registerMetricContainer, registerMetricService, registerMetricPost,
    lookupD, hso1, hc1, hfail, hne]

/-- Witness for the amended C2 at a concrete failing oracle. -/
theorem c2_failure_aborts_pass_witness :
    (registerMetric (c2Env c2oracle)
      (c2St ("m1", none, none) ("m2", none, none)
        ⟨none, none, none⟩ ⟨none, none, none⟩)).calls =
      [("m1", none, none)] ∧
    (registerMetric (c2Env c2oracle)
      (c2St ("m1", none, none) ("m2", none, none)
        ⟨none, none, none⟩ ⟨none, none, none⟩)).aborted = true ∧
    (registerMetric (c2Env c2oracle)
      (c2St ("m1", none, none) ("m2", none, none)
        ⟨none, none, none⟩ ⟨none, none, none⟩)).crashed = false ∧
    lookupD (registerMetric (c2Env c2oracle)
      (c2St ("m1", none, none) ("m2", none, none)
        ⟨none, none, none⟩ ⟨none, none, none⟩)).metrics_uuid
      ("m1", none, none) = some none ∧
    lookupD (registerMetric (c2Env c2oracle)
      (c2St ("m1", none, none) ("m2", none, none)
        ⟨none, none, none⟩ ⟨none, none, none⟩)).metrics_uuid
      ("m2", none, none) = some none :=
  c2_failure_aborts_pass c2oracle ("m1", none, none) ("m2", none, none)
    ⟨none, none, none⟩ ⟨none, none, none⟩
    (by decide) rfl rfl rfl (by decide)

/-! ## Claim C3 -/

theorem lookupD_eq_none_of_not_mem {K V : Type} [DecidableEq K]
    (l : List (K × V)) (k : K) (h : k ∉ l.map Prod.fst) :
    lookupD l k = none := by
  induction l with
  | nil => rfl
  | cons p t ih =>
    obtain ⟨k₀, v₀⟩ := p
    simp only [List.map_cons, List.mem_cons] at h
    push_neg at h
    simp only [lookupD]
    rw [if_neg (fun hh => h.1 hh.symm)]
    exact ih h.2

theorem lookupD_filter_eq_none_of_not_mem {K V : Type} [DecidableEq K]
    (f : K × V → Bool) (l : List (K × V)) (k : K)
    (h : k ∉ l.map Prod.fst) :
    lookupD (l.filter f) k = none := by
  apply lookupD_eq_none_of_not_mem
  intro hmem
  apply h
  obtain ⟨p, hp, hpk⟩ := List.mem_map.mp hmem
  exact List.mem_map.mpr ⟨p, (List.mem_filter.mp hp).1, hpk⟩

theorem lookupD_filter_rtKeep_none (registered : List String)
    (l : MetricsUuid) (k : MetricKey) (u : String)
    (hnd : (l.map Prod.fst).Nodup)
    (hk : lookupD l k = some (some u)) (hu : u ∉ registered) :
    lookupD (l.filter (rtKeep registered)) k = none := by
  induction l with
  | nil => simp [lookupD] at hk
  | cons p t ih =>
    obtain ⟨k₀, v₀⟩ := p
    simp only [List.map_cons, List.nodup_cons] at hnd
    obtain ⟨hk₀, hndt⟩ := hnd
    by_cases he : k₀ = k
    · subst he
      rw [lookupD, if_pos rfl] at hk
      obtain rfl : v₀ = some u := Option.some.inj hk
      have hkeep : rtKeep registered (k₀, some u) = false := by
        simp [rtKeep, hu]
      rw [List.filter_cons, hkeep]
      simp only [Bool.false_eq_true, if_false]
      exact lookupD_filter_eq_none_of_not_mem _ t k₀ hk₀
    · rw [lookupD, if_neg he] at hk
      rw [List.filter_cons]
      by_cases hkeep : rtKeep registered (k₀, v₀) = true
      · rw [if_pos hkeep, lookupD, if_neg he]
        exact ih hndt hk
      · simp only [Bool.not_eq_true] at hkeep
        rw [hkeep]
        simp only [Bool.false_eq_true, if_false]
        exact ih hndt hk

/-- C3 counterexample: a metric resolved as uuid "u" that is absent
from the fetched remote metric set has its `metrics_uuid` entry deleted
outright by `_retrive_threshold` — not turned into a tombstone; a later
`emit_metric` of the same identity re-inserts the identity as
unresolved, and one `_register_metric` pass then re-registers it with a
fresh uuid. -/
theorem c3_counterexample :
    retriveThreshold false [] (fun _ => 204) []
        [(("cpu_used", none, none), some "u")] =
      some ⟨[], [], [("cpu_used", none)]⟩ ∧
    lookupD (emitMetric
        { metric_queue := [], metrics_uuid := [], metrics_info := [],
          alerting_mode := false, alerting_metric := [] }
        { measurement := "cpu_used" }).metrics_uuid
      ("cpu_used", none, none) = some none ∧
    lookupD (registerMetric
        { docker_containers := [], container_uuid := [],
          services_uuid := [],
          oracle := fun _ => { status := 201, id := "new-uuid" } }
        { metrics_uuid := [(("cpu_used", none, none), none)],
          metrics_info := [(("cpu_used", none, none), ⟨none, none, none⟩)],
          thresholds := [] }).metrics_uuid ("cpu_used", none, none) =
      some (some "new-uuid") := by
  decide

/-- C3 (amended): when a metric is deleted on the remote side (its uuid
is no longer in the fetched remote set), `_retrive_threshold` removes
its identity-cache entry entirely — there is no tombstone; while absent,
the drain loop drops its points, but a later emission of the same
identity re-inserts it as unresolved, making re-registration possible. -/
theorem c3_deleted_entry_removed_then_reinserted (am : Bool)
    (wl : List String) (delo : String → Nat) (remote : List RemoteMetric)
    (registered : List String) (th : Thresholds) (muuid : MetricsUuid)
    (k : MetricKey) (u : String) (s : EmitState) (m : Metric)
    (res : RTResult)
    (hfetch : rtFetchLoop am wl delo remote [] [] = some (registered, th))
    (hrt : retriveThreshold am wl delo remote muuid = some res)
    (hnd : (muuid.map Prod.fst).Nodup)
    (hk : lookupD muuid k = some (some u)) (hu : u ∉ registered)
    (hs : s.metrics_uuid = res.metrics_uuid)
    (hkey : metricKey m = k)
    (hsent : sentMetric s.alerting_mode s.alerting_metric m.measurement
      m.status.isSome = true) :
    lookupD res.metrics_uuid k = none ∧
    lookupD (emitMetric s m).metrics_uuid k = some none := by
  have hres : res.metrics_uuid = muuid.filter (rtKeep registered) := by
    rw [retriveThreshold, hfetch] at hrt
    obtain rfl := Option.some.inj hrt
    rfl
  have h1 : lookupD res.metrics_uuid k = none := by
    rw [hres]
    exact lookupD_filter_rtKeep_none registered muuid k u hnd hk hu
  refine ⟨h1, ?_⟩
  rw [emitMetric_metrics_uuid_eq, hkey]
  rw [hs] at *
  simp only [hsent, h1, if_pos (And.intro rfl rfl)]
  exact lookupD_setD_self _ _ _

/-- Witness for the amended C3 at a concrete state. -/
theorem c3_deleted_entry_removed_then_reinserted_witness :
    lookupD (RTResult.mk [] [] [("cpu_used", none)]).metrics_uuid
      ("cpu_used", none, none) = none ∧
    lookupD (emitMetric
        { metric_queue := [], metrics_uuid := [], metrics_info := [],
          alerting_mode := false, alerting_metric := [] }
        { measurement := "cpu_used" }).metrics_uuid
      ("cpu_used", none, none) = some none :=
  c3_deleted_entry_removed_then_reinserted false [] (fun _ => 204) []
    [] [] [(("cpu_used", none, none), some "u")] ("cpu_used", none, none)
    "u"
    { metric_queue := [], metrics_uuid := [], metrics_info := [],
      alerting_mode := false, alerting_metric := [] }
    { measurement := "cpu_used" }
    (RTResult.mk [] [] [("cpu_used", none)])
    (by decide) (by decide) (by decide) (by decide) (by decide)
    (by decide) (by decide) (by decide)

/-! ## Claim C5 -/

theorem registerContainersCreate_preserves (env : ContEnv)
    (docker : List (String × String)) (name : String)
    (h : name ∉ docker.map Prod.fst) :
    ∀ cu, lookupD (registerContainersCreate env docker cu) name =
      lookupD cu name := by
  induction docker with
  | nil => intro cu; rfl
  | cons nb t ih =>
    intro cu
    simp only [List.map_cons, List.mem_cons] at h
    push_neg at h
    simp only [registerContainersCreate, List.foldl_cons] at ih ⊢
    rw [ih h.2]
    split
    · rfl
    · split
      · exact lookupD_setD_ne cu nb.1 name _ h.1
      · rfl

theorem containerDelete_fold_none (env : ContEnv) (name : String) :
    ∀ (l : List String) (st : ContState),
      lookupD st.container_uuid name = none →
      lookupD ((l.foldl (containerDeleteStep env) st)).container_uuid name =
        none := by
  intro l
  induction l with
  | nil => intro st h; exact h
  | cons n' t ih =>
    intro st h
    simp only [List.foldl_cons]
    apply ih
    unfold containerDeleteStep
    cases hl : lookupD st.container_uuid n' with
    | none => exact h
    | some p =>
      obtain ⟨hh, ou⟩ := p
      cases ou with
      | none => exact h
      | some obj =>
        show lookupD
          ((if env.deleteOracle obj = 204 ∨ env.deleteOracle obj = 404 then
              ({ container_uuid := eraseD st.container_uuid n',
                 last_containers_removed := env.clock } : ContState)
            else st)).container_uuid name = none
        by_cases hdd : env.deleteOracle obj = 204 ∨ env.deleteOracle obj = 404
        · rw [if_pos hdd]
          show lookupD (eraseD st.container_uuid n') name = none
          by_cases hnn : name = n'
          · subst hnn; exact lookupD_eraseD_self _ _
          · rw [lookupD_eraseD_ne _ _ _ hnn]; exact h
        · rw [if_neg hdd]; exact h

theorem containerDelete_fold_removes (env : ContEnv) (name h0 u : String)
    (hdel : env.deleteOracle u = 204 ∨ env.deleteOracle u = 404) :
    ∀ (l : List String) (st : ContState), name ∈ l →
      lookupD st.container_uuid name = some (h0, some u) →
      lookupD ((l.foldl (containerDeleteStep env) st)).container_uuid name =
        none := by
  intro l
  induction l with
  | nil => intro st hmem _; simp at hmem
  | cons n' t ih =>
    intro st hmem hlook
    simp only [List.foldl_cons]
    by_cases hnn : n' = name
    · subst hnn
      have hstep :
          lookupD (containerDeleteStep env st n').container_uuid n' = none := by
        unfold containerDeleteStep
        rw [hlook]
        show lookupD
          ((if env.deleteOracle u = 204 ∨ env.deleteOracle u = 404 then
              ({ container_uuid := eraseD st.container_uuid n',
                 last_containers_removed := env.clock } : ContState)
            else st)).container_uuid n' = none
        rw [if_pos hdel]
        exact lookupD_eraseD_self _ _
      exact containerDelete_fold_none env n' t _ hstep
    · have hstep :
          lookupD (containerDeleteStep env st n').container_uuid name =
            some (h0, some u) := by
        unfold containerDeleteStep
        cases hl : lookupD st.container_uuid n' with
        | none => exact hlook
        | some p =>
          obtain ⟨hh, ou⟩ := p
          cases ou with
          | none => exact hlook
          | some obj =>
            show lookupD
              ((if env.deleteOracle obj = 204 ∨ env.deleteOracle obj = 404 then
                  ({ container_uuid := eraseD st.container_uuid n',
                     last_containers_removed := env.clock } : ContState)
                else st)).container_uuid name = _
            by_cases hdd :
                env.deleteOracle obj = 204 ∨ env.deleteOracle obj = 404
            · rw [if_pos hdd]
              show lookupD (eraseD st.container_uuid n') name = _
              rw [lookupD_eraseD_ne _ _ _ (fun hh2 => hnn hh2.symm)]
              exact hlook
            · rw [if_neg hdd]; exact hlook
      have hmem' : name ∈ t := by
        rcases List.mem_cons.mp hmem with h | h
        · exact absurd h.symm hnn
        · exact h
      exact ih _ hmem' hstep

/-- C5 counterexample: a cached, registered container absent from a
single local discovery pass is deleted from the registry and removed
from the cache by that same `_register_containers` pass — there is no
debounce over a full reconciliation interval. -/
theorem c5_counterexample :
    lookupD ({ container_uuid := [("web", ("h1", some "cu1"))],
               last_containers_removed := 0 } : ContState).container_uuid
      "web" = some ("h1", some "cu1") ∧
    lookupD (registerContainers c5env []
      { container_uuid := [("web", ("h1", some "cu1"))],
        last_containers_removed := 0 }).container_uuid "web" = none := by
  decide

/-- C5 (amended): a registered container that is absent from local
discovery is deleted from the registry and removed from the identity
cache in the same reconciliation pass, as soon as the registry delete
returns 204 or 404; no debounce interval is required. -/
theorem c5_absent_container_deleted_same_pass (env : ContEnv)
    (docker : List (String × String)) (st : ContState)
    (name h0 u : String)
    (hc : lookupD st.container_uuid name = some (h0, some u))
    (habsent : name ∉ docker.map Prod.fst)
    (hdel : env.deleteOracle u = 204 ∨ env.deleteOracle u = 404) :
    lookupD (registerContainers env docker st).container_uuid name = none := by
  have hcu :
      lookupD (registerContainersCreate env docker st.container_uuid) name =
        some (h0, some u) := by
    rw [registerContainersCreate_preserves env docker name habsent]
    exact hc
  have hmem : name ∈
      ((registerContainersCreate env docker st.container_uuid).map
        Prod.fst).filter (fun n => !decide (n ∈ docker.map Prod.fst)) := by
    apply List.mem_filter.mpr
    constructor
    · exact mem_keys_of_lookupD hcu
    · simp [habsent]
  exact containerDelete_fold_removes env name h0 u hdel _ _ hmem hcu

/-- Witness for the amended C5 at a concrete state. -/
theorem c5_absent_container_deleted_same_pass_witness :
    lookupD (registerContainers c5env []
      { container_uuid := [("web", ("h1", some "cu1"))],
        last_containers_removed := 0 }).container_uuid "web" = none :=
  c5_absent_container_deleted_same_pass c5env []
    { container_uuid := [("web", ("h1", some "cu1"))],
      last_containers_removed := 0 }
    "web" "h1" "cu1" (by decide) (by decide) (by decide)

/-! ## Claim C8 -/

theorem registerMetricPost_shape (env : RegEnv) (st : RegState)
    (mk : MetricKey) (mn : String) (itm : Option String) :
    (registerMetricPost env st mk mn itm).calls = st.calls ++ [mk] ∧
    (∀ k, mk ≠ k →
      lookupD (registerMetricPost env st mk mn itm).metrics_uuid k =
        lookupD st.metrics_uuid k) ∧
    (registerMetricPost env st mk mn itm).metrics_info = st.metrics_info := by
  simp only [registerMetricPost]
  split
  · exact ⟨rfl, fun k hk => rfl, rfl⟩
  · exact ⟨rfl, fun k hk => lookupD_setD_ne _ _ _ _ (Ne.symm hk), rfl⟩

theorem registerMetricService_shape (env : RegEnv) (st : RegState)
    (mk : MetricKey) (mn : String) (sv itm : Option String)
    (info : MetricInfoV) :
    ((registerMetricService env st mk mn sv itm info).calls = st.calls ∨
      (registerMetricService env st mk mn sv itm info).calls =
        st.calls ++ [mk]) ∧
    ∀ k, mk ≠ k →
      lookupD (registerMetricService env st mk mn sv itm info).metrics_uuid
          k = lookupD st.metrics_uuid k ∧
      lookupD (registerMetricService env st mk mn sv itm info).metrics_info
          k = lookupD st.metrics_info k := by
  have hp := registerMetricPost_shape env st mk mn itm
  cases sv with
  | none =>
    unfold registerMetricService
    exact ⟨Or.inr hp.1, fun k hk => ⟨hp.2.1 k hk, by rw [hp.2.2]⟩⟩
  | some sname =>
    unfold registerMetricService
    dsimp only
    cases hs : lookupD env.services_uuid (sname, info.instance_) with
    | none => exact ⟨Or.inl rfl, fun k hk => ⟨rfl, rfl⟩⟩
    | some su =>
      exact ⟨Or.inr hp.1, fun k hk => ⟨hp.2.1 k hk, by rw [hp.2.2]⟩⟩

theorem registerMetricContainer_shape (env : RegEnv) (st : RegState)
    (mk : MetricKey) (mn : String) (sv itm : Option String)
    (info : MetricInfoV) :
    ((registerMetricContainer env st mk mn sv itm info).calls = st.calls ∨
      (registerMetricContainer env st mk mn sv itm info).calls =
        st.calls ++ [mk]) ∧
    ∀ k, mk ≠ k →
      lookupD (registerMetricContainer env st mk mn sv itm info).metrics_uuid
          k = lookupD st.metrics_uuid k ∧
      lookupD (registerMetricContainer env st mk mn sv itm info).metrics_info
          k = lookupD st.metrics_info k := by
  unfold registerMetricContainer
  cases hc : info.container with
  | none => exact registerMetricService_shape env st mk mn sv itm info
  | some cname =>
    dsimp only
    split
    · cases hcu : lookupD env.container_uuid cname with
      | none => exact ⟨Or.inl rfl, fun k hk => ⟨rfl, rfl⟩⟩
      | some p =>
        obtain ⟨hh, ou⟩ := p
        cases ou with
        | none => exact ⟨Or.inl rfl, fun k hk => ⟨rfl, rfl⟩⟩
        | some cu =>
          exact registerMetricService_shape env st mk mn sv itm info
    · refine ⟨Or.inl rfl, fun k hk => ⟨?_, ?_⟩⟩
      · exact lookupD_eraseD_ne _ _ _ (Ne.symm hk)
      · exact lookupD_eraseD_ne _ _ _ (Ne.symm hk)

theorem registerMetricStep_shape (env : RegEnv) (st : RegState)
    (p : MetricKey × Option String) :
    ((registerMetricStep env st p).calls = st.calls ∨
      (registerMetricStep env st p).calls = st.calls ++ [p.1]) ∧
    ∀ k, p.1 ≠ k →
      lookupD (registerMetricStep env st p).metrics_uuid k =
        lookupD st.metrics_uuid k ∧
      lookupD (registerMetricStep env st p).metrics_info k =
        lookupD st.metrics_info k := by
  obtain ⟨⟨mn, sv, itm⟩, v⟩ := p
  unfold registerMetricStep
  split
  · exact ⟨Or.inl rfl, fun k hk => ⟨rfl, rfl⟩⟩
  · cases v with
    | some u => exact ⟨Or.inl rfl, fun k hk => ⟨rfl, rfl⟩⟩
    | none =>
      dsimp only
      cases hi : lookupD st.metrics_info (mn, sv, itm) with
      | none =>
        refine ⟨Or.inl rfl, fun k hk => ⟨?_, rfl⟩⟩
        exact lookupD_eraseD_ne _ _ _ (Ne.symm hk)
      | some info =>
        dsimp only
        cases hs : info.status_of with
        | some so =>
          dsimp only
          cases hpar : lookupD st.metrics_uuid (so, sv, itm) with
          | none =>
            refine ⟨Or.inl rfl, fun k hk => ⟨?_, ?_⟩⟩
            · exact lookupD_eraseD_ne _ _ _ (Ne.symm hk)
            · exact lookupD_eraseD_ne _ _ _ (Ne.symm hk)
          | some pv =>
            cases pv with
            | none => exact ⟨Or.inl rfl, fun k hk => ⟨rfl, rfl⟩⟩
            | some pu =>
              exact registerMetricContainer_shape env st (mn, sv, itm)
                mn sv itm info
        | none =>
          exact registerMetricContainer_shape env st (mn, sv, itm)
            mn sv itm info

theorem registerMetric_fold_calls_not_mem (env : RegEnv) :
    ∀ (l : List (MetricKey × Option String)) (st : RegState) (k : MetricKey),
      k ∉ st.calls → k ∉ l.map Prod.fst →
      k ∉ (l.foldl (registerMetricStep env) st).calls := by
  intro l
  induction l with
  | nil => intro st k h _; exact h
  | cons p t ih =>
    intro st k hc hm
    simp only [List.map_cons, List.mem_cons] at hm
    push_neg at hm
    simp only [List.foldl_cons]
    apply ih _ _ _ hm.2
    rcases (registerMetricStep_shape env st p).1 with heq | heq
    · rw [heq]; exact hc
    · rw [heq]
      intro hmem
      rcases List.mem_append.mp hmem with h | h
      · exact hc h
      · simp only [List.mem_singleton] at h
        exact hm.1 h

theorem registerMetric_fold_lookup_ne (env : RegEnv) :
    ∀ (l : List (MetricKey × Option String)) (st : RegState) (k : MetricKey),
      k ∉ l.map Prod.fst →
      lookupD (l.foldl (registerMetricStep env) st).metrics_uuid k =
        lookupD st.metrics_uuid k ∧
      lookupD (l.foldl (registerMetricStep env) st).metrics_info k =
        lookupD st.metrics_info k := by
  intro l
  induction l with
  | nil => intro st k _; exact ⟨rfl, rfl⟩
  | cons p t ih =>
    intro st k hm
    simp only [List.map_cons, List.mem_cons] at hm
    push_neg at hm
    simp only [List.foldl_cons]
    have hstep := (registerMetricStep_shape env st p).2 k (Ne.symm hm.1)
    have hih := ih (registerMetricStep env st p) k hm.2
    exact ⟨hih.1.trans hstep.1, hih.2.trans hstep.2⟩

theorem registerMetricStep_purges (env : RegEnv) (st : RegState)
    (mn : String) (sv itm : Option String) (b : String) (iA : MetricInfoV)
    (hok : st.aborted = false) (hcr : st.crashed = false)
    (hinfo : lookupD st.metrics_info (mn, sv, itm) = some iA)
    (hso : iA.status_of = some b)
    (hparent : lookupD st.metrics_uuid (b, sv, itm) = none) :
    registerMetricStep env st ((mn, sv, itm), none) =
      { st with metrics_uuid := eraseD st.metrics_uuid (mn, sv, itm),
                metrics_info := eraseD st.metrics_info (mn, sv, itm) } := by
  simp only [registerMetricStep, hok, hcr, Bool.or_self, Bool.false_eq_true,
    if_false, hinfo, hso, hparent]

/-- C8 counterexample: with an unresolved metric "m1" processed before
the orphaned status metric "a_status" (whose `status_of` parent "gone"
is absent from the cache), a non-201 response for "m1" makes
`_register_metric` return before ever reaching "a_status" — the orphan
stays in both `metrics_uuid` and `metrics_info` after the pass, so one
resolver pass does not remove it as the claim states. -/
theorem c8_counterexample :
    lookupD (c2St ("m1", none, none) ("a_status", none, none)
        ⟨none, none, none⟩ ⟨some "gone", none, none⟩).metrics_uuid
      ("a_status", none, none) = some none ∧
    lookupD (c2St ("m1", none, none) ("a_status", none, none)
        ⟨none, none, none⟩ ⟨some "gone", none, none⟩).metrics_info
      ("a_status", none, none) = some ⟨some "gone", none, none⟩ ∧
    lookupD (c2St ("m1", none, none) ("a_status", none, none)
        ⟨none, none, none⟩ ⟨some "gone", none, none⟩).metrics_uuid
      ("gone", none, none) = none ∧
    (c2oracle ("m1", none, none)).status ≠ 201 ∧
    lookupD (registerMetric (c2Env c2oracle)
      (c2St ("m1", none, none) ("a_status", none, none)
        ⟨none, none, none⟩ ⟨some "gone", none, none⟩)).metrics_uuid
      ("a_status", none, none) = some none ∧
    lookupD (registerMetric (c2Env c2oracle)
      (c2St ("m1", none, none) ("a_status", none, none)
        ⟨none, none, none⟩ ⟨some "gone", none, none⟩)).metrics_info
      ("a_status", none, none) = some ⟨some "gone", none, none⟩ := by
  decide

/-- C8 (amended): for an unresolved metric A whose recorded info names a
`status_of` parent absent from the identity cache, the registration pass
removes A from both the identity cache and the metric-info map without
issuing any registry call for A — provided the pass actually reaches A,
i.e. it was not aborted earlier by a non-201 registration response or a
service-lookup error of a metric processed before A.  (A pass aborted
before reaching A leaves A untouched until a later cycle, as the
counterexample shows.)  Stated over an arbitrary cache `pre ++ A ::
post` with distinct keys: if the state after folding the prefix is
neither aborted nor crashed, still records A's info with the parent
absent, then after the full pass A is gone from both maps and never
appears among the issued calls. -/
theorem c8_orphan_purged (env : RegEnv) (st : RegState)
    (pre post : List (MetricKey × Option String))
    (mn : String) (sv itm : Option String) (b : String) (iA : MetricInfoV)
    (hsplit : st.metrics_uuid = pre ++ ((mn, sv, itm), none) :: post)
    (hnd : (st.metrics_uuid.map Prod.fst).Nodup)
    (hcalls0 : (mn, sv, itm) ∉ st.calls)
    (hok : (pre.foldl (registerMetricStep env) st).aborted = false)
    (hcr : (pre.foldl (registerMetricStep env) st).crashed = false)
    (hinfo : lookupD (pre.foldl (registerMetricStep env) st).metrics_info
      (mn, sv, itm) = some iA)
    (hso : iA.status_of = some b)
    (hparent : lookupD (pre.foldl (registerMetricStep env) st).metrics_uuid
      (b, sv, itm) = none) :
    lookupD (registerMetric env st).metrics_uuid (mn, sv, itm) = none ∧
    lookupD (registerMetric env st).metrics_info (mn, sv, itm) = none ∧
    (mn, sv, itm) ∉ (registerMetric env st).calls := by
  rw [hsplit, List.map_append, List.map_cons, List.nodup_append] at hnd
  obtain ⟨hnp, hnc, hdisj⟩ := hnd
  have hpre : (mn, sv, itm) ∉ pre.map Prod.fst :=
    fun hmem => hdisj hmem (List.mem_cons_self _ _)
  have hpost : (mn, sv, itm) ∉ post.map Prod.fst :=
    (List.nodup_cons.mp hnc).1
  have hfold : registerMetric env st =
      post.foldl (registerMetricStep env)
        (registerMetricStep env (pre.foldl (registerMetricStep env) st)
          ((mn, sv, itm), none)) := by
    unfold registerMetric
    rw [hsplit, List.foldl_append, List.foldl_cons]
  have hpurge := registerMetricStep_purges env
    (pre.foldl (registerMetricStep env) st) mn sv itm b iA
    hok hcr hinfo hso hparent
  have hA_uuid :
      lookupD (registerMetricStep env (pre.foldl (registerMetricStep env) st)
        ((mn, sv, itm), none)).metrics_uuid (mn, sv, itm) = none := by
    rw [hpurge]
    exact lookupD_eraseD_self _ _
  have hA_info :
      lookupD (registerMetricStep env (pre.foldl (registerMetricStep env) st)
        ((mn, sv, itm), none)).metrics_info (mn, sv, itm) = none := by
    rw [hpurge]
    exact lookupD_eraseD_self _ _
  have hA_calls : (mn, sv, itm) ∉
      (registerMetricStep env (pre.foldl (registerMetricStep env) st)
        ((mn, sv, itm), none)).calls := by
    rw [hpurge]
    exact registerMetric_fold_calls_not_mem env pre st _ hcalls0 hpre
  rw [hfold]
  have hpostfold := registerMetric_fold_lookup_ne env post
    (registerMetricStep env (pre.foldl (registerMetricStep env) st)
      ((mn, sv, itm), none)) (mn, sv, itm) hpost
  refine ⟨hpostfold.1.trans hA_uuid, hpostfold.2.trans hA_info, ?_⟩
  exact registerMetric_fold_calls_not_mem env post _ _ hA_calls hpost

/-- Witness for the amended C8: a pass whose cache holds exactly the
orphaned metric (empty prefix and suffix, so the pass trivially reaches
it) purges it from both maps with no registry call. -/
theorem c8_orphan_purged_witness :
    lookupD (registerMetric
      (RegEnv.mk [] [] [] (fun _ => ({ status := 201 } : RegResponse)))
      (c8St ("svc_status", none, none)
        ⟨some "disk_used", none, none⟩)).metrics_uuid
      ("svc_status", none, none) = none ∧
    lookupD (registerMetric
      (RegEnv.mk [] [] [] (fun _ => ({ status := 201 } : RegResponse)))
      (c8St ("svc_status", none, none)
        ⟨some "disk_used", none, none⟩)).metrics_info
      ("svc_status", none, none) = none ∧
    ("svc_status", none, none) ∉ (registerMetric
      (RegEnv.mk [] [] [] (fun _ => ({ status := 201 } : RegResponse)))
      (c8St ("svc_status", none, none)
        ⟨some "disk_used", none, none⟩)).calls :=
  c8_orphan_purged
    (RegEnv.mk [] [] [] (fun _ => ({ status := 201 } : RegResponse)))
    (c8St ("svc_status", none, none) ⟨some "disk_used", none, none⟩)
    [] [] "svc_status" none none "disk_used"
    ⟨some "disk_used", none, none⟩
    rfl (by decide) (by decide) rfl rfl (by decide) rfl (by decide)
